import Mathlib

/-!
# Verification of the airplane-flight-edu visualization code

Shallow embedding over `ℚ` of the physics/state-machine kernels of the
visualization modules (`js/visualizations/bernoulli.js`,
`js/visualizations/controls.js`, `js/main.js`), together with proofs and
refutations of the specified properties.

JavaScript numbers are modelled as rationals; decimal literals from the
source appear as exact fractions (e.g. `0.3 = 3/10`, `1.225 = 49/40`,
`0.95 = 19/20`).  Canvas dimensions (`this.width / devicePixelRatio`)
are passed explicitly as parameters `pw` (pixelWidth) and `ph`
(pixelHeight).
-/

namespace AirplaneFlightEdu

/-! ## Bernoulli flow simulator (`js/visualizations/bernoulli.js`) -/

/-- `this.AIR_DENSITY = 1.225` (kg/m³). -/
def AIR_DENSITY : ℚ := 49/40

/-- `this.ATMOSPHERIC_PRESSURE = 101325` (Pa). -/
def ATMOSPHERIC_PRESSURE : ℚ := 101325

/-- `this.tubeTop = 0.3`. -/
def tubeTop : ℚ := 3/10

/-- `this.tubeBottom = 0.7`. -/
def tubeBottom : ℚ := 7/10

/-- `this.throatTop = 0.4`. -/
def throatTop : ℚ := 2/5

/-- `this.throatBottom = 0.6`. -/
def throatBottom : ℚ := 3/5

/-- `this.throatStart = 0.35`. -/
def throatStart : ℚ := 7/20

/-- `this.throatEnd = 0.65`. -/
def throatEnd : ℚ := 13/20

/-- `BernoulliVisualization.getTubeHeightAt(x)`: tube top/bottom y
coordinates at longitudinal position `x`, for canvas pixel dimensions
`pw × ph`.  Three sections: converging entrance, throat, diverging
exit. -/
def getTubeHeightAt (pw ph x : ℚ) : ℚ × ℚ :=
  let normalizedX := x / pw
  if normalizedX < throatStart then
    let t := normalizedX / throatStart
    ((tubeTop + (throatTop - tubeTop) * t) * ph,
     (tubeBottom - (tubeBottom - throatBottom) * t) * ph)
  else if throatStart ≤ normalizedX ∧ normalizedX ≤ throatEnd then
    (throatTop * ph, throatBottom * ph)
  else
    let t := (normalizedX - throatEnd) / (1 - throatEnd)
    ((throatTop + (tubeTop - throatTop) * t) * ph,
     (throatBottom + (tubeBottom - throatBottom) * t) * ph)

/-- `BernoulliVisualization.getVelocityAt(x)` with `this.baseVelocity = v`:
continuity equation `v2 = v1 * (h1 / h2)` against the entrance height. -/
def getVelocityAt (v pw ph x : ℚ) : ℚ :=
  let entranceHeight := (tubeBottom - tubeTop) * ph
  let hb := getTubeHeightAt pw ph x
  let currentHeight := hb.2 - hb.1
  v * (entranceHeight / currentHeight)

/-- `BernoulliVisualization.getPressureAt(x)` with `this.baseVelocity = v`:
static pressure = total pressure − dynamic pressure at the local speed. -/
def getPressureAt (v pw ph x : ℚ) : ℚ :=
  let velocity := getVelocityAt v pw ph x
  let totalPressure := ATMOSPHERIC_PRESSURE + (1/2) * AIR_DENSITY * v^2
  totalPressure - (1/2) * AIR_DENSITY * velocity^2

/-! Helper lemmas about the duct geometry at the three sample positions
used by `drawPressureIndicators` / `drawVelocityIndicators`
(`0.15·pw` entrance, `0.5·pw` throat, `0.85·pw` exit). -/

theorem getTubeHeightAt_entrance_sample (pw ph : ℚ) (hpw : pw ≠ 0) :
    getTubeHeightAt pw ph ((3/20) * pw) = ((12/35) * ph, (23/35) * ph) := by
  unfold getTubeHeightAt
  rw [mul_div_assoc, div_self hpw, mul_one]
  rw [if_pos (by norm_num [throatStart])]
  norm_num [tubeTop, tubeBottom, throatTop, throatBottom, throatStart]

theorem getTubeHeightAt_throat_sample (pw ph : ℚ) (hpw : pw ≠ 0) :
    getTubeHeightAt pw ph ((1/2) * pw) = ((2/5) * ph, (3/5) * ph) := by
  unfold getTubeHeightAt
  rw [mul_div_assoc, div_self hpw, mul_one]
  rw [if_neg (by norm_num [throatStart]),
      if_pos (by norm_num [throatStart, throatEnd])]
  norm_num [throatTop, throatBottom]

theorem getTubeHeightAt_exit_sample (pw ph : ℚ) (hpw : pw ≠ 0) :
    getTubeHeightAt pw ph ((17/20) * pw) = ((12/35) * ph, (23/35) * ph) := by
  unfold getTubeHeightAt
  rw [mul_div_assoc, div_self hpw, mul_one]
  rw [if_neg (by norm_num [throatStart]),
      if_neg (by norm_num [throatStart, throatEnd])]
  norm_num [tubeTop, tubeBottom, throatTop, throatBottom, throatEnd]

theorem getVelocityAt_entrance_sample (v pw ph : ℚ) (hpw : pw ≠ 0) (hph : ph ≠ 0) :
    getVelocityAt v pw ph ((3/20) * pw) = v * (14/11) := by
  unfold getVelocityAt
  rw [getTubeHeightAt_entrance_sample pw ph hpw]
  show v * ((tubeBottom - tubeTop) * ph / ((23/35) * ph - (12/35) * ph)) = v * (14/11)
  rw [show (23/35) * ph - (12/35) * ph = (11/35) * ph by ring]
  rw [show (tubeBottom - tubeTop) * ph = (2/5) * ph by norm_num [tubeTop, tubeBottom]]
  rw [mul_div_mul_right _ _ hph]
  norm_num

theorem getVelocityAt_throat_sample (v pw ph : ℚ) (hpw : pw ≠ 0) (hph : ph ≠ 0) :
    getVelocityAt v pw ph ((1/2) * pw) = v * 2 := by
  unfold getVelocityAt
  rw [getTubeHeightAt_throat_sample pw ph hpw]
  show v * ((tubeBottom - tubeTop) * ph / ((3/5) * ph - (2/5) * ph)) = v * 2
  rw [show (3/5) * ph - (2/5) * ph = (1/5) * ph by ring]
  rw [show (tubeBottom - tubeTop) * ph = (2/5) * ph by norm_num [tubeTop, tubeBottom]]
  rw [mul_div_mul_right _ _ hph]
  norm_num

theorem getVelocityAt_exit_sample (v pw ph : ℚ) (hpw : pw ≠ 0) (hph : ph ≠ 0) :
    getVelocityAt v pw ph ((17/20) * pw) = v * (14/11) := by
  unfold getVelocityAt
  rw [getTubeHeightAt_exit_sample pw ph hpw]
  show v * ((tubeBottom - tubeTop) * ph / ((23/35) * ph - (12/35) * ph)) = v * (14/11)
  rw [show (23/35) * ph - (12/35) * ph = (11/35) * ph by ring]
  rw [show (tubeBottom - tubeTop) * ph = (2/5) * ph by norm_num [tubeTop, tubeBottom]]
  rw [mul_div_mul_right _ _ hph]
  norm_num

theorem getVelocityAt_eq (v pw ph x : ℚ) :
    getVelocityAt v pw ph x
      = v * ((tubeBottom - tubeTop) * ph
          / ((getTubeHeightAt pw ph x).2 - (getTubeHeightAt pw ph x).1)) := rfl

theorem getPressureAt_eq (v pw ph x : ℚ) :
    getPressureAt v pw ph x
      = (ATMOSPHERIC_PRESSURE + (1/2) * AIR_DENSITY * v^2)
          - (1/2) * AIR_DENSITY * (getVelocityAt v pw ph x)^2 := rfl

theorem pressure_plus_dynamic_const (v pw ph x y : ℚ) :
    getPressureAt v pw ph x + (1/2) * AIR_DENSITY * (getVelocityAt v pw ph x)^2
      = getPressureAt v pw ph y + (1/2) * AIR_DENSITY * (getVelocityAt v pw ph y)^2 := by
  rw [getPressureAt_eq, getPressureAt_eq]
  ring

theorem throat_pressure_lt_entrance (v pw ph : ℚ)
    (hv : 0 < v) (hpw : 0 < pw) (hph : 0 < ph) :
    getPressureAt v pw ph ((1/2) * pw) < getPressureAt v pw ph ((3/20) * pw) := by
  rw [getPressureAt_eq, getPressureAt_eq,
      getVelocityAt_throat_sample v pw ph hpw.ne' hph.ne',
      getVelocityAt_entrance_sample v pw ph hpw.ne' hph.ne']
  have hv2 : 0 < v * v := mul_pos hv hv
  unfold AIR_DENSITY
  nlinarith [hv2]

theorem entrance_pressure_eq_exit (v pw ph : ℚ) (hpw : pw ≠ 0) (hph : ph ≠ 0) :
    getPressureAt v pw ph ((3/20) * pw) = getPressureAt v pw ph ((17/20) * pw) := by
  rw [getPressureAt_eq, getPressureAt_eq,
      getVelocityAt_exit_sample v pw ph hpw hph,
      getVelocityAt_entrance_sample v pw ph hpw hph]

/-- C2: total-pressure conservation plus the sample-point comparisons.
For every position `x` the quantity
`staticPressure(x) + ½·ρ·velocity(x)²` equals the same constant (the
value at the throat sample); the throat-sample pressure is strictly
below the entrance-sample pressure; and the entrance- and exit-sample
pressures coincide (symmetric duct). -/
theorem bernoulli_total_pressure_conservation (v pw ph : ℚ)
    (hv : 0 < v) (hpw : 0 < pw) (hph : 0 < ph) :
    (∀ x : ℚ, getPressureAt v pw ph x
        + (1/2) * AIR_DENSITY * (getVelocityAt v pw ph x)^2
      = getPressureAt v pw ph ((1/2) * pw)
        + (1/2) * AIR_DENSITY * (getVelocityAt v pw ph ((1/2) * pw))^2) ∧
    getPressureAt v pw ph ((1/2) * pw) < getPressureAt v pw ph ((3/20) * pw) ∧
    getPressureAt v pw ph ((3/20) * pw) = getPressureAt v pw ph ((17/20) * pw) :=
  ⟨fun x => pressure_plus_dynamic_const v pw ph x ((1/2) * pw),
   throat_pressure_lt_entrance v pw ph hv hpw hph,
   entrance_pressure_eq_exit v pw ph hpw.ne' hph.ne'⟩

/-- Witness for C2 at `v = 50`, `pw = ph = 100`. -/
theorem bernoulli_total_pressure_conservation_witness :
    (0 : ℚ) < 50 ∧ (0 : ℚ) < 100 ∧
    getPressureAt 50 100 100 ((1/2) * 100) < getPressureAt 50 100 100 ((3/20) * 100) := by
  refine ⟨by norm_num, by norm_num, ?_⟩
  exact (bernoulli_total_pressure_conservation 50 100 100 (by norm_num)
    (by norm_num) (by norm_num)).2.1

/-- The channel height is at least the throat height `ph/5` everywhere in
the visible duct `0 ≤ x ≤ pw` (structurally bounded away from zero). -/
theorem tubeHeight_lower_bound (pw ph x : ℚ)
    (hpw : 0 < pw) (hph : 0 < ph) (hx0 : 0 ≤ x) (hx1 : x ≤ pw) :
    (1/5) * ph ≤ (getTubeHeightAt pw ph x).2 - (getTubeHeightAt pw ph x).1 := by
  have hn0 : 0 ≤ x / pw := div_nonneg hx0 hpw.le
  have hn1 : x / pw ≤ 1 := (div_le_one hpw).mpr hx1
  unfold getTubeHeightAt
  simp only [tubeTop, tubeBottom, throatTop, throatBottom, throatStart, throatEnd]
  split_ifs with h1 h2
  · have e1 : x / pw / (7/20) = (20/7) * (x / pw) := by ring
    rw [e1]
    nlinarith [mul_lt_mul_of_pos_right h1 hph]
  · nlinarith [hph.le]
  · push_neg at h1 h2
    have h3 : (13:ℚ)/20 < x / pw := h2 h1
    have e1 : (x / pw - 13/20) / (1 - 13/20) = (20/7) * (x / pw - 13/20) := by ring
    rw [e1]
    nlinarith [mul_lt_mul_of_pos_right h3 hph]

/-- C3: continuity invariant.  For every position `x` in the duct,
`entranceHeight · referenceSpeed = localHeight(x) · localSpeed(x)`
exactly, with `localHeight` from `getTubeHeightAt` and `localSpeed`
from `getVelocityAt`. -/
theorem bernoulli_continuity_invariant (v pw ph x : ℚ)
    (hpw : 0 < pw) (hph : 0 < ph) (hx0 : 0 ≤ x) (hx1 : x ≤ pw) :
    ((getTubeHeightAt pw ph x).2 - (getTubeHeightAt pw ph x).1)
        * getVelocityAt v pw ph x
      = ((tubeBottom - tubeTop) * ph) * v := by
  have hpos := tubeHeight_lower_bound pw ph x hpw hph hx0 hx1
  have hne : (getTubeHeightAt pw ph x).2 - (getTubeHeightAt pw ph x).1 ≠ 0 := by
    have : (0:ℚ) < (1/5) * ph := by positivity
    exact (lt_of_lt_of_le this hpos).ne'
  rw [getVelocityAt_eq]
  field_simp
  ring

/-- Witness for C3 at `v = 50`, `pw = ph = 100`, `x = 15`. -/
theorem bernoulli_continuity_invariant_witness :
    (0 : ℚ) < 100 ∧ (0 : ℚ) ≤ 15 ∧ (15 : ℚ) ≤ 100 ∧
    ((getTubeHeightAt 100 100 15).2 - (getTubeHeightAt 100 100 15).1)
        * getVelocityAt 50 100 100 15
      = ((tubeBottom - tubeTop) * 100) * 50 := by
  refine ⟨by norm_num, by norm_num, by norm_num, ?_⟩
  exact bernoulli_continuity_invariant 50 100 100 15 (by norm_num)
    (by norm_num) (by norm_num) (by norm_num)

/-- C5 counterexample: at `baseVelocity = 50` (canvas 100×100) the
pressure at the entrance sample position `0.15·pw` does NOT equal the
atmospheric constant plus the dynamic pressure at 50 m/s; the local
entrance-sample speed is `50·14/11`, not `0`. -/
theorem bernoulli_entrance_pressure_counterexample :
    getPressureAt 50 100 100 15
      ≠ ATMOSPHERIC_PRESSURE + (1/2) * AIR_DENSITY * 50^2 := by
  have h15 : (15:ℚ) = (3/20) * 100 := by norm_num
  rw [h15, getPressureAt_eq,
      getVelocityAt_entrance_sample 50 100 100 (by norm_num) (by norm_num)]
  unfold ATMOSPHERIC_PRESSURE AIR_DENSITY
  norm_num

/-- C5 (amended): at `baseVelocity = 50` the entrance-sample pressure
equals the total pressure (atmospheric constant plus dynamic pressure
at 50 m/s) minus the dynamic pressure at the local entrance-sample
speed `50·14/11`; and the throat-sample pressure is strictly lower. -/
theorem bernoulli_scenario50_pressures (pw ph : ℚ) (hpw : 0 < pw) (hph : 0 < ph) :
    getPressureAt 50 pw ph ((3/20) * pw)
      = ATMOSPHERIC_PRESSURE + (1/2) * AIR_DENSITY * 50^2
          - (1/2) * AIR_DENSITY * (50 * (14/11))^2 ∧
    getPressureAt 50 pw ph ((1/2) * pw) < getPressureAt 50 pw ph ((3/20) * pw) := by
  constructor
  · rw [getPressureAt_eq,
        getVelocityAt_entrance_sample 50 pw ph hpw.ne' hph.ne']
  · exact throat_pressure_lt_entrance 50 pw ph (by norm_num) hpw hph

/-- Witness for C5 (amended) at `pw = ph = 100`. -/
theorem bernoulli_scenario50_pressures_witness :
    (0 : ℚ) < 100 ∧
    getPressureAt 50 100 100 ((1/2) * 100) < getPressureAt 50 100 100 ((3/20) * 100) :=
  ⟨by norm_num,
   (bernoulli_scenario50_pressures 100 100 (by norm_num) (by norm_num)).2⟩

/-! ## Airfoil simulator (`js/main.js`, `AirfoilVisualization`) -/

/-- Base lift coefficient by type: `let baseOffset = 0;
if (this.airfoilType === 'cambered') { baseOffset = 0.2; }`. -/
def baseOffset (airfoilType : String) : ℚ :=
  if airfoilType = "cambered" then 1/5 else 0

/-- `AirfoilVisualization.calculateLiftCoefficient()` with
`this.airfoilType = airfoilType` and `this.angleOfAttack = alpha`:
piecewise map from angle of attack (degrees) to lift coefficient. -/
def calculateLiftCoefficient (airfoilType : String) (alpha : ℚ) : ℚ :=
  let stallAngle : ℚ := 15
  if alpha < -10 then
    -1/2
  else if -10 ≤ alpha ∧ alpha ≤ stallAngle then
    baseOffset airfoilType + (1/10) * alpha
  else if stallAngle < alpha ∧ alpha ≤ 20 then
    let maxCL := baseOffset airfoilType + (1/10) * stallAngle
    let reduction := (alpha - stallAngle) / 5
    maxCL - reduction * (4/5)
  else
    1/2

/-- ε–δ continuity of a rational-valued function at a point. -/
def QContinuousAt (f : ℚ → ℚ) (a : ℚ) : Prop :=
  ∀ ε : ℚ, 0 < ε → ∃ δ : ℚ, 0 < δ ∧ ∀ x : ℚ, |x - a| < δ → |f x - f a| < ε

theorem calculateLiftCoefficient_of_lt (t : String) (q : ℚ) (h : q < -10) :
    calculateLiftCoefficient t q = -1/2 := by
  unfold calculateLiftCoefficient
  rw [if_pos h]

theorem calculateLiftCoefficient_of_linear (t : String) (q : ℚ)
    (h1 : -10 ≤ q) (h2 : q ≤ 15) :
    calculateLiftCoefficient t q = baseOffset t + (1/10) * q := by
  unfold calculateLiftCoefficient
  rw [if_neg (by linarith), if_pos ⟨h1, h2⟩]

theorem calculateLiftCoefficient_of_stall (t : String) (q : ℚ)
    (h1 : 15 < q) (h2 : q ≤ 20) :
    calculateLiftCoefficient t q = (baseOffset t + 3/2) - (q - 15) * (4/25) := by
  unfold calculateLiftCoefficient
  rw [if_neg (by linarith), if_neg (by rintro ⟨_, h3⟩; linarith),
      if_pos ⟨h1, h2⟩]
  ring

theorem calculateLiftCoefficient_of_gt (t : String) (q : ℚ) (h : 20 < q) :
    calculateLiftCoefficient t q = 1/2 := by
  unfold calculateLiftCoefficient
  rw [if_neg (by linarith), if_neg (by rintro ⟨_, h3⟩; linarith),
      if_neg (by rintro ⟨_, h3⟩; linarith)]

theorem calculateLiftCoefficient_at_neg10 (t : String) :
    calculateLiftCoefficient t (-10) = baseOffset t - 1 := by
  rw [calculateLiftCoefficient_of_linear t (-10) le_rfl (by norm_num)]
  ring

theorem calculateLiftCoefficient_at_15 (t : String) :
    calculateLiftCoefficient t 15 = baseOffset t + 3/2 := by
  rw [calculateLiftCoefficient_of_linear t 15 (by norm_num) le_rfl]
  ring

theorem calculateLiftCoefficient_at_20 (t : String) :
    calculateLiftCoefficient t 20 = baseOffset t + 7/10 := by
  rw [calculateLiftCoefficient_of_stall t 20 (by norm_num) le_rfl]
  ring

theorem baseOffset_cases (t : String) : baseOffset t = 0 ∨ baseOffset t = 1/5 := by
  unfold baseOffset
  split_ifs <;> simp

theorem liftCoeff_contAt_15 (t : String) :
    QContinuousAt (calculateLiftCoefficient t) 15 := by
  intro ε hε
  refine ⟨min ε 1, lt_min hε one_pos, ?_⟩
  intro x hx
  have hx1 : |x - 15| < 1 := lt_of_lt_of_le hx (min_le_right _ _)
  have hxe : |x - 15| < ε := lt_of_lt_of_le hx (min_le_left _ _)
  obtain ⟨ha, hb⟩ := abs_lt.mp hx1
  obtain ⟨ha2, hb2⟩ := abs_lt.mp hxe
  rw [calculateLiftCoefficient_at_15]
  rcases le_or_lt x 15 with hle | hlt
  · rw [calculateLiftCoefficient_of_linear t x (by linarith) hle]
    rw [show baseOffset t + (1/10) * x - (baseOffset t + 3/2) = (x - 15) * (1/10) by ring]
    rw [abs_lt]
    constructor <;> nlinarith
  · rw [calculateLiftCoefficient_of_stall t x hlt (by linarith)]
    rw [show (baseOffset t + 3/2) - (x - 15) * (4/25) - (baseOffset t + 3/2)
          = -((x - 15) * (4/25)) by ring]
    rw [abs_neg, abs_lt]
    constructor <;> nlinarith

theorem liftCoeff_not_contAt_neg10 (t : String) :
    ¬ QContinuousAt (calculateLiftCoefficient t) (-10) := by
  intro hcont
  obtain ⟨δ, hδ, h⟩ := hcont (1/4) (by norm_num)
  have hmin0 : 0 < min (δ/2) 1 := lt_min (by linarith) one_pos
  have hminδ : min (δ/2) 1 < δ := lt_of_le_of_lt (min_le_left _ _) (by linarith)
  have hclose : |(-10 - min (δ/2) 1) - (-10)| < δ := by
    rw [show (-10 - min (δ/2) 1) - (-10) = -(min (δ/2) 1) by ring,
        abs_neg, abs_of_pos hmin0]
    exact hminδ
  have hval := h _ hclose
  rw [calculateLiftCoefficient_of_lt t _ (by linarith),
      calculateLiftCoefficient_at_neg10] at hval
  rcases baseOffset_cases t with hb | hb <;> rw [hb, abs_lt] at hval <;>
    norm_num at hval

theorem liftCoeff_not_contAt_20 (t : String) :
    ¬ QContinuousAt (calculateLiftCoefficient t) 20 := by
  intro hcont
  obtain ⟨δ, hδ, h⟩ := hcont (1/10) (by norm_num)
  have hmin0 : 0 < min (δ/2) 1 := lt_min (by linarith) one_pos
  have hminδ : min (δ/2) 1 < δ := lt_of_le_of_lt (min_le_left _ _) (by linarith)
  have hclose : |(20 + min (δ/2) 1) - 20| < δ := by
    rw [show (20 + min (δ/2) 1) - 20 = min (δ/2) 1 by ring, abs_of_pos hmin0]
    exact hminδ
  have hval := h _ hclose
  rw [calculateLiftCoefficient_of_gt t _ (by linarith),
      calculateLiftCoefficient_at_20] at hval
  rcases baseOffset_cases t with hb | hb <;> rw [hb, abs_lt] at hval <;>
    norm_num at hval

/-- C1 counterexample: for the cambered type the lift-coefficient curve
is NOT continuous at −10 (it jumps from the −0.5 plateau to
`baseOffset − 1 = −0.8`); the claim as stated (continuity at −10, 15,
20 and a post-stall drop of 80% of the peak) is therefore false. -/
theorem calculateLiftCoefficient_continuity_counterexample :
    ¬ (QContinuousAt (calculateLiftCoefficient "cambered") (-10) ∧
       QContinuousAt (calculateLiftCoefficient "cambered") 20 ∧
       calculateLiftCoefficient "cambered" 20
         = (1 - 4/5) * calculateLiftCoefficient "cambered" 15) := by
  intro h
  exact liftCoeff_not_contAt_neg10 "cambered" h.1

/-- C1 (amended): for every airfoil type in {cambered, symmetric, flat}
the lift coefficient equals −0.5 strictly below −10° and 0.5 strictly
above 20°, and is continuous at 15°; but it is discontinuous at −10°
(value `baseOffset − 1`) and at 20° (value `baseOffset + 0.7`), and on
`15 < α ≤ 20` it decays linearly from the 15° peak by an absolute
amount of up to 0.8 (not by 80% of the peak). -/
theorem calculateLiftCoefficient_piecewise_behavior :
    ∀ t ∈ (["cambered", "symmetric", "flat"] : List String),
      (∀ q : ℚ, q < -10 → calculateLiftCoefficient t q = -1/2) ∧
      (∀ q : ℚ, 20 < q → calculateLiftCoefficient t q = 1/2) ∧
      QContinuousAt (calculateLiftCoefficient t) 15 ∧
      ¬ QContinuousAt (calculateLiftCoefficient t) (-10) ∧
      ¬ QContinuousAt (calculateLiftCoefficient t) 20 ∧
      (∀ q : ℚ, 15 < q → q ≤ 20 →
        calculateLiftCoefficient t q = (baseOffset t + 3/2) - (q - 15) * (4/25)) ∧
      calculateLiftCoefficient t (-10) = baseOffset t - 1 ∧
      calculateLiftCoefficient t 20 = baseOffset t + 7/10 := by
  intro t _
  exact ⟨fun q h => calculateLiftCoefficient_of_lt t q h,
         fun q h => calculateLiftCoefficient_of_gt t q h,
         liftCoeff_contAt_15 t,
         liftCoeff_not_contAt_neg10 t,
         liftCoeff_not_contAt_20 t,
         fun q h1 h2 => calculateLiftCoefficient_of_stall t q h1 h2,
         calculateLiftCoefficient_at_neg10 t,
         calculateLiftCoefficient_at_20 t⟩

/-- Witness for C1 (amended) at the cambered type. -/
theorem calculateLiftCoefficient_piecewise_behavior_witness :
    "cambered" ∈ (["cambered", "symmetric", "flat"] : List String) ∧
    calculateLiftCoefficient "cambered" (-11) = -1/2 ∧
    calculateLiftCoefficient "cambered" 21 = 1/2 ∧
    calculateLiftCoefficient "cambered" 18
      = (baseOffset "cambered" + 3/2) - (18 - 15) * (4/25) := by
  have hmem : "cambered" ∈ (["cambered", "symmetric", "flat"] : List String) :=
    List.mem_cons_self _ _
  obtain ⟨h1, h2, _, _, _, h6, _, _⟩ :=
    calculateLiftCoefficient_piecewise_behavior "cambered" hmem
  exact ⟨hmem, h1 (-11) (by norm_num), h2 21 (by norm_num),
         h6 18 (by norm_num) (by norm_num)⟩

/-! ## Control-surfaces simulator (`js/visualizations/controls.js`) -/

/-- Mutable fields of `ControlSurfacesVisualization` touched by
`setControls` / `reset`. -/
structure ControlsState where
  aileronDeflection : ℚ
  elevatorDeflection : ℚ
  rudderDeflection : ℚ
  rollAngle : ℚ
  pitchAngle : ℚ
  yawAngle : ℚ
deriving DecidableEq

/-- `ControlSurfacesVisualization.setControls(aileron, elevator, rudder)`:
stores the deflections and recomputes the rotation indicators with the
fixed gains `−0.8`, `−0.5`, `0.6`. -/
def ControlSurfacesVisualization.setControls (s : ControlsState)
    (aileron elevator rudder : ℚ) : ControlsState :=
  { s with
    aileronDeflection := aileron
    elevatorDeflection := elevator
    rudderDeflection := rudder
    rollAngle := -aileron * (4/5)
    pitchAngle := -elevator * (1/2)
    yawAngle := rudder * (3/5) }

/-- C8: `setControls` maps deflections to rotation indicators by fixed
linear gains with the documented signs, and `setControls(10, 0, 0)`
produces `rollAngle = −8` with pitch and yaw indicators 0. -/
theorem setControls_fixed_gains :
    (∀ (s : ControlsState) (aileron elevator rudder : ℚ),
      (ControlSurfacesVisualization.setControls s aileron elevator rudder).rollAngle
          = -aileron * (4/5) ∧
      (ControlSurfacesVisualization.setControls s aileron elevator rudder).pitchAngle
          = -elevator * (1/2) ∧
      (ControlSurfacesVisualization.setControls s aileron elevator rudder).yawAngle
          = rudder * (3/5)) ∧
    (∀ s : ControlsState,
      (ControlSurfacesVisualization.setControls s 10 0 0).rollAngle = -8 ∧
      (ControlSurfacesVisualization.setControls s 10 0 0).pitchAngle = 0 ∧
      (ControlSurfacesVisualization.setControls s 10 0 0).yawAngle = 0) := by
  refine ⟨fun s a e r => ⟨rfl, rfl, rfl⟩, fun s => ⟨?_, ?_, ?_⟩⟩ <;>
    norm_num [ControlSurfacesVisualization.setControls]

/-! ## Logical-or option defaulting (all constructors) -/

/-- JavaScript `a || b` applied to an optional numeric option field:
an absent field (`undefined`) and the number `0` are both falsy, so
both give the default. -/
def jsOrNum (a : Option ℚ) (b : ℚ) : ℚ :=
  match a with
  | none => b
  | some v => if v = 0 then b else v

/-- Options object accepted by `new BernoulliVisualization(id, options)`. -/
structure BernoulliOptions where
  baseVelocity : Option ℚ
  particleCount : Option ℚ

/-- `this.baseVelocity = options.baseVelocity || 50;
this.particleCount = options.particleCount || 150;` -/
def BernoulliVisualization.initialParams (o : BernoulliOptions) : ℚ × ℚ :=
  (jsOrNum o.baseVelocity 50, jsOrNum o.particleCount 150)

/-- Options object accepted by `new AirfoilVisualization(id, options)`
(numeric field only). -/
structure AirfoilOptions where
  angleOfAttack : Option ℚ

/-- `this.angleOfAttack = options.angleOfAttack || 5;` -/
def AirfoilVisualization.initialAngleOfAttack (o : AirfoilOptions) : ℚ :=
  jsOrNum o.angleOfAttack 5

/-- Options object accepted by `new ForcesVisualization(id, options)`. -/
structure ForcesOptions where
  lift : Option ℚ
  weight : Option ℚ
  thrust : Option ℚ
  drag : Option ℚ

/-- `this.lift = options.lift || 50;` and likewise for weight, thrust,
drag. -/
def ForcesVisualization.initialForces (o : ForcesOptions) : ℚ × ℚ × ℚ × ℚ :=
  (jsOrNum o.lift 50, jsOrNum o.weight 50, jsOrNum o.thrust 50, jsOrNum o.drag 50)

/-- C9: passing the numeric value 0 for a configurable constructor
option yields the documented default instead of 0, identically to
omitting the option, because `||` treats 0 as falsy. -/
theorem constructor_zero_option_defaults :
    BernoulliVisualization.initialParams ⟨some 0, some 0⟩
        = BernoulliVisualization.initialParams ⟨none, none⟩ ∧
    BernoulliVisualization.initialParams ⟨some 0, some 0⟩ = (50, 150) ∧
    AirfoilVisualization.initialAngleOfAttack ⟨some 0⟩
        = AirfoilVisualization.initialAngleOfAttack ⟨none⟩ ∧
    AirfoilVisualization.initialAngleOfAttack ⟨some 0⟩ = 5 ∧
    ForcesVisualization.initialForces ⟨some 0, some 0, some 0, some 0⟩
        = ForcesVisualization.initialForces ⟨none, none, none, none⟩ ∧
    ForcesVisualization.initialForces ⟨some 0, some 0, some 0, some 0⟩
        = (50, 50, 50, 50) := by
  refine ⟨rfl, rfl, rfl, rfl, rfl, rfl⟩

/-! ## Four-forces simulator (`js/main.js`, `ForcesVisualization`) -/

/-- Mutable state of `ForcesVisualization` used by `update`. -/
structure ForcesState where
  lift : ℚ
  weight : ℚ
  thrust : ℚ
  drag : ℚ
  planeX : ℚ
  planeY : ℚ
  planeRotation : ℚ
  verticalVelocity : ℚ
  horizontalVelocity : ℚ
deriving DecidableEq

/-- `ForcesVisualization.update(deltaTime)` for canvas pixel dimensions
`pw × ph`: accumulate net force × 0.5 × deltaTime into the velocities,
damp both by 0.95, integrate and clamp position into the padded region,
and pull rotation towards `−netVertical·0.003` with factor 0.1. -/
def ForcesVisualization.update (pw ph : ℚ) (s : ForcesState) (deltaTime : ℚ) :
    ForcesState :=
  let netVertical := s.lift - s.weight
  let netHorizontal := s.thrust - s.drag
  let velocityScale : ℚ := 1/2
  let verticalVelocity := (s.verticalVelocity + netVertical * velocityScale * deltaTime) * (19/20)
  let horizontalVelocity := (s.horizontalVelocity + netHorizontal * velocityScale * deltaTime) * (19/20)
  let planeY := s.planeY - verticalVelocity * deltaTime
  let planeX := s.planeX + horizontalVelocity * deltaTime
  let padding : ℚ := 100
  let planeX := max padding (min (pw - padding) planeX)
  let planeY := max padding (min (ph - padding) planeY)
  let targetRotation := -netVertical * (3/1000)
  let planeRotation := s.planeRotation + (targetRotation - s.planeRotation) * (1/10)
  { s with
    planeX := planeX
    planeY := planeY
    planeRotation := planeRotation
    verticalVelocity := verticalVelocity
    horizontalVelocity := horizontalVelocity }

/-- `n` consecutive `update` calls with a fixed `deltaTime`. -/
def ForcesVisualization.updateIter (pw ph dt : ℚ) (s : ForcesState) : ℕ → ForcesState
  | 0 => s
  | n + 1 => ForcesVisualization.update pw ph (ForcesVisualization.updateIter pw ph dt s n) dt

theorem update_verticalVelocity (pw ph : ℚ) (s : ForcesState) (dt : ℚ) :
    (ForcesVisualization.update pw ph s dt).verticalVelocity
      = (s.verticalVelocity + (s.lift - s.weight) * (1/2) * dt) * (19/20) := rfl

theorem update_horizontalVelocity (pw ph : ℚ) (s : ForcesState) (dt : ℚ) :
    (ForcesVisualization.update pw ph s dt).horizontalVelocity
      = (s.horizontalVelocity + (s.thrust - s.drag) * (1/2) * dt) * (19/20) := rfl

theorem updateIter_forces_const (pw ph dt : ℚ) (s : ForcesState) (n : ℕ) :
    (ForcesVisualization.updateIter pw ph dt s n).lift = s.lift ∧
    (ForcesVisualization.updateIter pw ph dt s n).weight = s.weight ∧
    (ForcesVisualization.updateIter pw ph dt s n).thrust = s.thrust ∧
    (ForcesVisualization.updateIter pw ph dt s n).drag = s.drag := by
  induction n with
  | zero => exact ⟨rfl, rfl, rfl, rfl⟩
  | succ n ih => exact ih

theorem updateIter_vv_bound (pw ph : ℚ) (s : ForcesState) (n : ℕ) :
    |(ForcesVisualization.updateIter pw ph (2/125) s n).verticalVelocity|
      ≤ max |s.verticalVelocity| ((19/125) * |s.lift - s.weight|) := by
  induction n with
  | zero => exact le_max_left _ _
  | succ n ih =>
    have hF := updateIter_forces_const pw ph (2/125) s n
    show |(ForcesVisualization.update pw ph
      (ForcesVisualization.updateIter pw ph (2/125) s n) (2/125)).verticalVelocity| ≤ _
    rw [update_verticalVelocity, hF.1, hF.2.1]
    set vn := (ForcesVisualization.updateIter pw ph (2/125) s n).verticalVelocity with hvn
    set F := s.lift - s.weight with hFdef
    set B := max |s.verticalVelocity| ((19/125) * |F|) with hBdef
    have habs : |(vn + F * (1/2) * (2/125)) * (19/20)|
        = |vn + F * (1/2) * (2/125)| * (19/20) := by
      rw [abs_mul]
      norm_num
    have htri : |vn + F * (1/2) * (2/125)| ≤ |vn| + |F| * (1/125) := by
      refine le_trans (abs_add _ _) ?_
      rw [abs_mul, abs_mul, show |(1:ℚ)/2| = 1/2 by norm_num,
          show |(2:ℚ)/125| = 2/125 by norm_num]
      linarith [abs_nonneg F]
    have hB1 : (19/125) * |F| ≤ B := le_max_right _ _
    have hB0 : |vn| ≤ B := ih
    rw [habs]
    nlinarith [abs_nonneg (vn + F * (1/2) * (2/125))]

theorem updateIter_hv_bound (pw ph : ℚ) (s : ForcesState) (n : ℕ) :
    |(ForcesVisualization.updateIter pw ph (2/125) s n).horizontalVelocity|
      ≤ max |s.horizontalVelocity| ((19/125) * |s.thrust - s.drag|) := by
  induction n with
  | zero => exact le_max_left _ _
  | succ n ih =>
    have hF := updateIter_forces_const pw ph (2/125) s n
    show |(ForcesVisualization.update pw ph
      (ForcesVisualization.updateIter pw ph (2/125) s n) (2/125)).horizontalVelocity| ≤ _
    rw [update_horizontalVelocity, hF.2.2.1, hF.2.2.2]
    set vn := (ForcesVisualization.updateIter pw ph (2/125) s n).horizontalVelocity with hvn
    set F := s.thrust - s.drag with hFdef
    set B := max |s.horizontalVelocity| ((19/125) * |F|) with hBdef
    have habs : |(vn + F * (1/2) * (2/125)) * (19/20)|
        = |vn + F * (1/2) * (2/125)| * (19/20) := by
      rw [abs_mul]
      norm_num
    have htri : |vn + F * (1/2) * (2/125)| ≤ |vn| + |F| * (1/125) := by
      refine le_trans (abs_add _ _) ?_
      rw [abs_mul, abs_mul, show |(1:ℚ)/2| = 1/2 by norm_num,
          show |(2:ℚ)/125| = 2/125 by norm_num]
      linarith [abs_nonneg F]
    have hB1 : (19/125) * |F| ≤ B := le_max_right _ _
    have hB0 : |vn| ≤ B := ih
    rw [habs]
    nlinarith [abs_nonneg (vn + F * (1/2) * (2/125))]

/-- Concrete scenario state for C7: net vertical and horizontal force
100 (`lift − weight = thrust − drag = 100`), body centred, at rest. -/
def forcesNetForce100State : ForcesState :=
  { lift := 150, weight := 50, thrust := 150, drag := 50,
    planeX := 400, planeY := 300, planeRotation := 0,
    verticalVelocity := 0, horizontalVelocity := 0 }

/-- C7: under repeated 16 ms updates (`deltaTime = 0.016 = 2/125` s)
with constant forces, both velocity components stay within the bound
`max(|v₀|, (19/125)·|net force|)` derived from the 0.95 damping factor;
in particular with net force 100 held for 10\,000 steps the speed stays
at most `15.2`. -/
theorem forces_damping_velocity_bounded :
    (∀ (pw ph : ℚ) (s : ForcesState) (n : ℕ),
      |(ForcesVisualization.updateIter pw ph (2/125) s n).verticalVelocity|
          ≤ max |s.verticalVelocity| ((19/125) * |s.lift - s.weight|) ∧
      |(ForcesVisualization.updateIter pw ph (2/125) s n).horizontalVelocity|
          ≤ max |s.horizontalVelocity| ((19/125) * |s.thrust - s.drag|)) ∧
    |(ForcesVisualization.updateIter 800 600 (2/125)
        forcesNetForce100State 10000).verticalVelocity| ≤ 76/5 ∧
    |(ForcesVisualization.updateIter 800 600 (2/125)
        forcesNetForce100State 10000).horizontalVelocity| ≤ 76/5 := by
  refine ⟨fun pw ph s n => ⟨updateIter_vv_bound pw ph s n, updateIter_hv_bound pw ph s n⟩, ?_, ?_⟩
  · have h := updateIter_vv_bound 800 600 forcesNetForce100State 10000
    have : max |forcesNetForce100State.verticalVelocity|
        ((19/125) * |forcesNetForce100State.lift - forcesNetForce100State.weight|) = 76/5 := by
      norm_num [forcesNetForce100State]
    rwa [this] at h
  · have h := updateIter_hv_bound 800 600 forcesNetForce100State 10000
    have : max |forcesNetForce100State.horizontalVelocity|
        ((19/125) * |forcesNetForce100State.thrust - forcesNetForce100State.drag|) = 76/5 := by
      norm_num [forcesNetForce100State]
    rwa [this] at h

/-! ## Flight-phases state machine (`js/main.js`, `FlightPhasesVisualization`) -/

/-- The airplane pose fields of `FlightPhasesVisualization`. -/
structure PhasesAirplane where
  x : ℚ
  y : ℚ
  rotation : ℚ
  targetX : ℚ
  targetY : ℚ
  targetRotation : ℚ
  velocity : ℚ
  targetVelocity : ℚ
deriving DecidableEq

/-- Mutable fields of `FlightPhasesVisualization` used by `setPhase`,
`toggleAutoPlay` and the auto-play branch of `update`. -/
structure PhasesState where
  currentPhase : String
  phaseProgress : ℚ
  phaseStartTime : ℚ
  airplane : PhasesAirplane
  autoPlayEnabled : Bool
  currentPhaseIndex : ℕ
  groundLevel : ℚ
deriving DecidableEq

/-- `this.phaseSequence = ['takeoff', 'climb', 'cruise', 'descent', 'landing']`. -/
def phaseSequence : List String :=
  ["takeoff", "climb", "cruise", "descent", "landing"]

/-- `FlightPhasesVisualization.setPhase(phase)` at time `now`
(`performance.now()`), for canvas pixel dimensions `pw × ph`:
records the phase, resets the within-phase progress, retargets the pose
via the `switch` (unknown names leave the targets untouched), and snaps
the pose to the target on first initialization (`x === 0 && y === 0`). -/
def FlightPhasesVisualization.setPhase (pw ph : ℚ) (s : PhasesState)
    (phase : String) (now : ℚ) : PhasesState :=
  let s := { s with currentPhase := phase, phaseProgress := 0, phaseStartTime := now }
  let a := s.airplane
  let a :=
    if phase = "takeoff" then
      { a with targetX := pw * (1/5), targetY := s.groundLevel - 20,
               targetRotation := 0, targetVelocity := 60 }
    else if phase = "climb" then
      { a with targetX := pw * (7/20), targetY := ph * (2/5),
               targetRotation := -15, targetVelocity := 70 }
    else if phase = "cruise" then
      { a with targetX := pw * (1/2), targetY := ph * (3/10),
               targetRotation := 0, targetVelocity := 80 }
    else if phase = "descent" then
      { a with targetX := pw * (13/20), targetY := ph * (1/2),
               targetRotation := 5, targetVelocity := 65 }
    else if phase = "landing" then
      { a with targetX := pw * (4/5), targetY := s.groundLevel - 20,
               targetRotation := 3, targetVelocity := 50 }
    else a
  let a :=
    if a.x = 0 ∧ a.y = 0 then
      { a with x := a.targetX, y := a.targetY,
               rotation := a.targetRotation, velocity := a.targetVelocity }
    else a
  { s with airplane := a }

/-- State after `new FlightPhasesVisualization(...)` and its `init()`:
zeroed pose, `currentPhase = 'cruise'`, `currentPhaseIndex = 2`,
`groundLevel = ph − 80`, then `setPhase('cruise')`. -/
def FlightPhasesVisualization.constructed (pw ph : ℚ) : PhasesState :=
  FlightPhasesVisualization.setPhase pw ph
    { currentPhase := "cruise", phaseProgress := 0, phaseStartTime := 0,
      airplane := ⟨0, 0, 0, 0, 0, 0, 0, 0⟩,
      autoPlayEnabled := false, currentPhaseIndex := 2,
      groundLevel := ph - 80 } "cruise" 0

/-- `FlightPhasesVisualization.toggleAutoPlay()` at time `now`: flips the
flag and, when turning on, resets the phase start time. -/
def FlightPhasesVisualization.toggleAutoPlay (s : PhasesState) (now : ℚ) :
    PhasesState :=
  let e := !s.autoPlayEnabled
  { s with autoPlayEnabled := e,
           phaseStartTime := if e then now else s.phaseStartTime }

/-- The phase-advancement branch of `FlightPhasesVisualization.update`
(taken when auto-play is on and `elapsed >= phaseDuration`):
`currentPhaseIndex = (currentPhaseIndex + 1) % phaseSequence.length;
setPhase(phaseSequence[currentPhaseIndex])`. -/
def FlightPhasesVisualization.advancePhase (pw ph : ℚ) (s : PhasesState)
    (now : ℚ) : PhasesState :=
  let i := (s.currentPhaseIndex + 1) % phaseSequence.length
  FlightPhasesVisualization.setPhase pw ph { s with currentPhaseIndex := i }
    (phaseSequence.getD i "") now

/-- `n` phase-duration advancement steps. -/
def FlightPhasesVisualization.advanceN (pw ph : ℚ) (s : PhasesState) :
    ℕ → PhasesState
  | 0 => s
  | n + 1 =>
      FlightPhasesVisualization.advancePhase pw ph
        (FlightPhasesVisualization.advanceN pw ph s n) 0

/-- The C4 start state on an 800×600 canvas: freshly constructed
(cruise, index 2) with auto-play just enabled. -/
def phasesAutoplayStart : PhasesState :=
  FlightPhasesVisualization.toggleAutoPlay
    (FlightPhasesVisualization.constructed 800 600) 0

/-- C4 counterexample: from cruise (index 2) with auto-play enabled,
after 4 advancement steps the active phase is "climb", not "landing"
(and after 5 it is "cruise", not "takeoff"). -/
theorem flight_phases_after4_counterexample :
    ¬ ((FlightPhasesVisualization.advanceN 800 600 phasesAutoplayStart 4).currentPhase
          = "landing" ∧
       (FlightPhasesVisualization.advanceN 800 600 phasesAutoplayStart 5).currentPhase
          = "takeoff") := by
  decide

/-- C4 (amended): from cruise (index 2) with auto-play enabled, after 2
phase-duration advancement steps the active phase equals "landing", and
after 3 advancement steps it equals "takeoff" (after 4 it is "climb"
and after 5 it is back to "cruise"). -/
theorem flight_phases_cycle_from_cruise :
    (FlightPhasesVisualization.advanceN 800 600 phasesAutoplayStart 2).currentPhase
        = "landing" ∧
    (FlightPhasesVisualization.advanceN 800 600 phasesAutoplayStart 3).currentPhase
        = "takeoff" ∧
    (FlightPhasesVisualization.advanceN 800 600 phasesAutoplayStart 4).currentPhase
        = "climb" ∧
    (FlightPhasesVisualization.advanceN 800 600 phasesAutoplayStart 5).currentPhase
        = "cruise" := by
  decide

/-- C10: `setPhase` with a name outside the five known phases records
that name as the current phase and resets the within-phase progress,
while leaving all four target-pose fields unchanged. -/
theorem setPhase_unknown_name_keeps_targets (pw ph : ℚ) (s : PhasesState)
    (phase : String) (now : ℚ) (h : phase ∉ phaseSequence) :
    (FlightPhasesVisualization.setPhase pw ph s phase now).currentPhase = phase ∧
    (FlightPhasesVisualization.setPhase pw ph s phase now).phaseProgress = 0 ∧
    (FlightPhasesVisualization.setPhase pw ph s phase now).airplane.targetX
        = s.airplane.targetX ∧
    (FlightPhasesVisualization.setPhase pw ph s phase now).airplane.targetY
        = s.airplane.targetY ∧
    (FlightPhasesVisualization.setPhase pw ph s phase now).airplane.targetRotation
        = s.airplane.targetRotation ∧
    (FlightPhasesVisualization.setPhase pw ph s phase now).airplane.targetVelocity
        = s.airplane.targetVelocity := by
  simp only [phaseSequence, List.mem_cons, List.not_mem_nil, or_false, not_or] at h
  obtain ⟨h1, h2, h3, h4, h5⟩ := h
  unfold FlightPhasesVisualization.setPhase
  simp only [if_neg h1, if_neg h2, if_neg h3, if_neg h4, if_neg h5]
  split_ifs <;> simp

/-- Witness for C10: `setPhase("hover")` on the constructed state. -/
theorem setPhase_unknown_name_keeps_targets_witness :
    "hover" ∉ phaseSequence ∧
    (FlightPhasesVisualization.setPhase 800 600
        (FlightPhasesVisualization.constructed 800 600) "hover" 1).currentPhase
      = "hover" ∧
    (FlightPhasesVisualization.setPhase 800 600
        (FlightPhasesVisualization.constructed 800 600) "hover" 1).airplane.targetX
      = (FlightPhasesVisualization.constructed 800 600).airplane.targetX := by
  have hmem : "hover" ∉ phaseSequence := by decide
  have h := setPhase_unknown_name_keeps_targets 800 600
    (FlightPhasesVisualization.constructed 800 600) "hover" 1 hmem
  exact ⟨hmem, h.1, h.2.2.1⟩

/-! ## Missing-canvas construction (`bernoulli.js` constructor and
setters) -/

/-- A JavaScript runtime exception. -/
inductive JsError
  | typeError
deriving DecidableEq

/-- The 2D drawing context handle (`canvas.getContext('2d')`). -/
inductive Ctx2D
  | mk
deriving DecidableEq

/-- Observable fields of a `BernoulliVisualization` object; `none`
models a field the constructor never assigned (JS `undefined`). -/
structure BernoulliObj where
  canvas : Option Unit
  ctx : Option Ctx2D
  baseVelocity : Option ℚ
  isRunning : Option Bool
deriving DecidableEq

/-- Reading a property of `undefined` (e.g. `this.ctx.fillStyle` when
`this.ctx` was never assigned) throws a `TypeError`; otherwise it
yields the value. -/
def jsGet {α : Type} (a : Option α) : Except JsError α :=
  match a with
  | none => .error .typeError
  | some v => .ok v

/-- `new BernoulliVisualization(canvasId)` when
`document.getElementById(canvasId)` finds no canvas: the constructor
logs via `console.error` and returns early, so no exception is thrown
and every instance field after `this.canvas` stays undefined.  Returns
the object and whether an error was logged. -/
def BernoulliVisualization.constructMissing : Except JsError (BernoulliObj × Bool) :=
  .ok ({ canvas := none, ctx := none, baseVelocity := none, isRunning := none }, true)

/-- `BernoulliVisualization.draw()`: its first statement
`this.ctx.fillStyle = '#FAFAFA'` dereferences `this.ctx`; the
subsequent canvas painting has no further observable effect on the
modelled state. -/
def BernoulliVisualization.draw (o : BernoulliObj) : Except JsError Unit := do
  let _ ← jsGet o.ctx
  pure ()

/-- `BernoulliVisualization.setVelocity(velocity)`: assigns
`this.baseVelocity` and, since `!this.isRunning` (undefined is falsy),
calls `this.draw()`. -/
def BernoulliVisualization.setVelocity (o : BernoulliObj) (velocity : ℚ) :
    Except JsError BernoulliObj := do
  let o := { o with baseVelocity := some velocity }
  if (o.isRunning.getD false) = false then
    let _ ← BernoulliVisualization.draw o
    pure o
  else
    pure o

/-- C6: constructing `BernoulliVisualization` with a missing canvas does
not throw and logs a diagnostic, but the object is NOT inert: the very
next `setVelocity(60)` call reaches `draw()`, whose
`this.ctx.fillStyle` dereferences the undefined context and throws a
`TypeError` — contradicting the specified no-op failure mode. -/
theorem bernoulli_missing_canvas_not_inert :
    BernoulliVisualization.constructMissing
      = .ok ({ canvas := none, ctx := none, baseVelocity := none,
               isRunning := none }, true) ∧
    BernoulliVisualization.setVelocity
        { canvas := none, ctx := none, baseVelocity := none, isRunning := none } 60
      = .error .typeError := by
  exact ⟨rfl, rfl⟩

end AirplaneFlightEdu
